import Mathlib

/-!
Shallow embedding of the frame-walking engine of
`Source/PLCrashFrameWalker.c` (PLCrashReporter), together with proofs of
the specified behaviour of its operations.

The translation unit itself contains the error-string lookup, the three
cursor initializers, `plframe_cursor_next`, `plframe_cursor_get_reg` and
`plframe_cursor_free`.  Its collaborators — the frame reader
`plframe_cursor_read_frame_ptr`, the thread-state adapters, and the
register-validity-set operations — are declared in headers that are not
part of the provided sources; they are modelled from the specification
and, where their behaviour is unconstrained, taken as parameters.
-/

/-- The error codes of the frame walker (`plframe_error_t`).  The
enumeration order follows the specification's external contract:
success, unknown, no-more-frames, corrupted-frame, not-supported,
invalid-argument, internal, invalid-register. -/
inductive plframe_error_t where
  | PLFRAME_ESUCCESS
  | PLFRAME_EUNKNOWN
  | PLFRAME_ENOFRAME
  | PLFRAME_EBADFRAME
  | PLFRAME_ENOTSUP
  | PLFRAME_EINVAL
  | PLFRAME_INTERNAL
  | PLFRAME_EBADREG
  deriving DecidableEq

/-- `plframe_strerror` (PLCrashFrameWalker.c, lines 39-61): returns an
error description for the given `plframe_error_t`.  The C `switch` covers
every enumerator; the trailing `return "Unhandled error code"` after the
switch is marked "Should be unreachable" and is indeed unreachable, which
the exhaustive match mirrors. -/
def plframe_strerror : plframe_error_t → String
  | .PLFRAME_ESUCCESS => "No error"
  | .PLFRAME_EUNKNOWN => "Unknown error"
  | .PLFRAME_ENOFRAME => "No frames are available"
  | .PLFRAME_EBADFRAME => "Corrupted frame"
  | .PLFRAME_ENOTSUP => "Operation not supported"
  | .PLFRAME_EINVAL => "Invalid argument"
  | .PLFRAME_INTERNAL => "Internal error"
  | .PLFRAME_EBADREG => "Invalid register"

/-- Modelled from the spec: the register validity set (`plframe_regset_t`,
declared in a header outside the provided sources) is a fixed-capacity
bitset over register ids with O(1) mark-all-valid, mark-all-invalid and
test operations; it is modelled by its characteristic function. -/
def plframe_regset_t : Type := Nat → Bool

/-- Modelled from the spec: mark-all-valid on a register validity set. -/
def plframe_regset_set_all : plframe_regset_t := fun _ => true

/-- Modelled from the spec: mark-all-invalid on a register validity set. -/
def plframe_regset_zero : plframe_regset_t := fun _ => false

/-- Modelled from the spec: test a register id's bit in a validity set. -/
def plframe_regset_isset (set : plframe_regset_t) (regnum : Nat) : Bool :=
  set regnum

/-- Modelled from the spec: `plcrash_async_thread_state_t` is an opaque
per-platform value holding a full register file, copied by value; it is
modelled as a map from register id to register value. -/
structure plcrash_async_thread_state_t where
  regs : Nat → Nat

/-- Modelled from the spec: the thread-state accessor
`plcrash_async_thread_state_get_reg` returns the already-materialized
value of a register from the given thread state. -/
def plcrash_async_thread_state_get_reg (ts : plcrash_async_thread_state_t)
    (regnum : Nat) : Nat :=
  ts.regs regnum

/-- A frame snapshot (`plframe_stackframe_t`): a thread-state copy paired
with its register validity set. -/
structure plframe_stackframe_t where
  thread_state : plcrash_async_thread_state_t
  valid_registers : plframe_regset_t

/-- Mach task names (`task_t`): modelled as port names. -/
abbrev task_t := Nat

/-- Mach thread names (`thread_t`). -/
abbrev thread_t := Nat

/-- Signal contexts (`ucontext_t`), opaque to the engine. -/
abbrev ucontext_t := Nat

/-- The null Mach port name. -/
def MACH_PORT_NULL : task_t := 0

/-- Send-right reference counts of the calling task's port namespace,
modelled as a map from port name to count. -/
abbrev mach_refs_t := task_t → Int

/-- `mach_port_mod_refs(mach_task_self(), port, MACH_PORT_RIGHT_SEND, delta)`:
adjusts the send-right reference count of `port` by `delta`. -/
def mach_port_mod_refs (refs : mach_refs_t) (port : task_t) (delta : Int) :
    mach_refs_t :=
  fun p => if p = port then refs p + delta else refs p

/-- The frame cursor (`plframe_cursor_t`): depth counter, owned task
reference, and the two-frame sliding window (`frame` is the current
snapshot, `prev_frame` the previous one). -/
structure plframe_cursor_t where
  depth : Nat
  task : task_t
  frame : plframe_stackframe_t
  prev_frame : plframe_stackframe_t

/-- `plframe_cursor_internal_init` (lines 111-119): shared initializer.
Sets `depth := 0` and `task`, acquires one send-right reference on the
task, marks all current-frame registers available and all previous-frame
registers unavailable.  The C function mutates a caller-provided record
in place; the thread-state fields it does not touch are carried over from
the incoming record. -/
def plframe_cursor_internal_init (cursor : plframe_cursor_t) (task : task_t)
    (refs : mach_refs_t) : plframe_cursor_t × mach_refs_t :=
  ({ cursor with
      depth := 0
      task := task
      frame := { cursor.frame with valid_registers := plframe_regset_set_all }
      prev_frame := { cursor.prev_frame with valid_registers := plframe_regset_zero } },
   mach_port_mod_refs refs task 1)

/-- `plframe_cursor_init` (lines 133-139): shared initialization, then
`plcrash_async_memcpy` of the caller's thread state into the current
frame (a verbatim, by-value copy), returning `PLFRAME_ESUCCESS`. -/
def plframe_cursor_init (cursor : plframe_cursor_t) (task : task_t)
    (thread_state : plcrash_async_thread_state_t) (refs : mach_refs_t) :
    plframe_error_t × plframe_cursor_t × mach_refs_t :=
  let ir := plframe_cursor_internal_init cursor task refs
  let c1 := ir.1
  (.PLFRAME_ESUCCESS,
   { c1 with frame := { c1.frame with thread_state := thread_state } },
   ir.2)

/-- Modelled from the spec: the signal-context thread-state adapter
(`plcrash_async_thread_state_ucontext_init`, declared outside the
provided sources) converts a `ucontext_t` into the engine's thread-state
format; per the spec the conversion can report an error code, so the
adapter is modelled as yielding a code together with the converted state
written through its out parameter. -/
abbrev ucontext_adapter_t :=
  ucontext_t → plframe_error_t × plcrash_async_thread_state_t

/-- Modelled from the spec: the live-thread thread-state adapter
(`plcrash_async_thread_state_mach_thread_init`, declared outside the
provided sources) fetches a thread's state, yielding an error code and
the state written through its out parameter. -/
abbrev mach_thread_adapter_t :=
  thread_t → plframe_error_t × plcrash_async_thread_state_t

/-- `plframe_cursor_signal_init` (lines 153-160): shared initialization,
then conversion of the signal context via the adapter.  The call on line
157 is a plain statement — any code the adapter yields is discarded — and
the function returns `PLFRAME_ESUCCESS` unconditionally. -/
def plframe_cursor_signal_init (adapter : ucontext_adapter_t)
    (cursor : plframe_cursor_t) (task : task_t) (uap : ucontext_t)
    (refs : mach_refs_t) : plframe_error_t × plframe_cursor_t × mach_refs_t :=
  let ir := plframe_cursor_internal_init cursor task refs
  let c1 := ir.1
  (.PLFRAME_ESUCCESS,
   { c1 with frame := { c1.frame with thread_state := (adapter uap).2 } },
   ir.2)

/-- `plframe_cursor_thread_init` (lines 175-180): shared initialization,
then state fetch from the mach thread; the adapter's code is returned
directly. -/
def plframe_cursor_thread_init (adapter : mach_thread_adapter_t)
    (cursor : plframe_cursor_t) (task : task_t) (thread : thread_t)
    (refs : mach_refs_t) : plframe_error_t × plframe_cursor_t × mach_refs_t :=
  let ir := plframe_cursor_internal_init cursor task refs
  let c1 := ir.1
  ((adapter thread).1,
   { c1 with frame := { c1.frame with thread_state := (adapter thread).2 } },
   ir.2)

/-- The frame reader interface (`plframe_cursor_read_frame_ptr`, an
external collaborator): given the task, the current frame and — when one
is available — the previous frame, it yields an error code together with
the next frame written through its out parameter (meaningful only on
success). -/
abbrev frame_reader_t :=
  task_t → plframe_stackframe_t → Option plframe_stackframe_t →
    plframe_error_t × plframe_stackframe_t

/-- `plframe_cursor_next` (lines 189-214): fetch the next frame.  At
depth 0 the first frame is already available, so the depth is bumped and
success returned without invoking the reader.  Otherwise the reader is
called with the current frame and, only from depth 2 on, the previous
frame; a non-success code is returned with the cursor untouched (the C
code compares against `PLCRASH_ESUCCESS`, whose ordinal equals
`PLFRAME_ESUCCESS`); on success the window shifts and the depth is
incremented. -/
def plframe_cursor_next (reader : frame_reader_t) (cursor : plframe_cursor_t) :
    plframe_error_t × plframe_cursor_t :=
  if cursor.depth = 0 then
    (.PLFRAME_ESUCCESS, { cursor with depth := cursor.depth + 1 })
  else
    let prev_frame : Option plframe_stackframe_t :=
      if 2 ≤ cursor.depth then some cursor.prev_frame else none
    let rd := reader cursor.task cursor.frame prev_frame
    if rd.1 ≠ .PLFRAME_ESUCCESS then
      (rd.1, cursor)
    else
      (.PLFRAME_ESUCCESS,
       { cursor with
          prev_frame := cursor.frame
          frame := rd.2
          depth := cursor.depth + 1 })

/-- `plframe_cursor_get_reg` (lines 224-232): returns `PLFRAME_ENOTSUP`
when the register's bit is unset in the current frame's validity set (the
out parameter is then left unwritten, modelled as `none`); otherwise
fetches the value from the stored thread state and returns success. -/
def plframe_cursor_get_reg (cursor : plframe_cursor_t) (regnum : Nat) :
    plframe_error_t × Option Nat :=
  if plframe_regset_isset cursor.frame.valid_registers regnum = false then
    (.PLFRAME_ENOTSUP, none)
  else
    (.PLFRAME_ESUCCESS,
     some (plcrash_async_thread_state_get_reg cursor.frame.thread_state regnum))

/-- `plframe_cursor_free` (lines 258-261): releases the send-right
reference on the owned task, but only when the task is not the null
port. -/
def plframe_cursor_free (cursor : plframe_cursor_t) (refs : mach_refs_t) :
    mach_refs_t :=
  if cursor.task ≠ MACH_PORT_NULL then
    mach_port_mod_refs refs cursor.task (-1)
  else
    refs

/-! Concrete sample data used by the witness theorems. -/

/-- A concrete thread state: every register holds 0. -/
def sample_thread_state : plcrash_async_thread_state_t := ⟨fun _ => 0⟩

/-- A concrete thread state with distinguishable register values. -/
def sample_thread_state2 : plcrash_async_thread_state_t := ⟨fun r => r + 40⟩

/-- A concrete frame with no valid registers. -/
def sample_frame : plframe_stackframe_t :=
  ⟨sample_thread_state, plframe_regset_zero⟩

/-- A concrete frame with all registers valid. -/
def sample_frame_valid : plframe_stackframe_t :=
  ⟨sample_thread_state2, plframe_regset_set_all⟩

/-- A concrete cursor at depth 1 on task 7. -/
def sample_cursor1 : plframe_cursor_t :=
  ⟨1, 7, sample_frame_valid, sample_frame⟩

/-- A concrete cursor at depth 0 on task 7. -/
def sample_cursor0 : plframe_cursor_t :=
  ⟨0, 7, sample_frame_valid, sample_frame⟩

/-- A concrete reference-count state. -/
def sample_refs : mach_refs_t := fun _ => 3

/-- A concrete frame reader that always reports `PLFRAME_ENOFRAME`. -/
def sample_reader_err : frame_reader_t :=
  fun _ _ _ => (.PLFRAME_ENOFRAME, sample_frame)

/-- A concrete reader that reports no-more-frames when given no previous
frame, and success otherwise. -/
def sample_reader_a : frame_reader_t :=
  fun _ _ p =>
    match p with
    | none => (.PLFRAME_ENOFRAME, sample_frame)
    | some _ => (.PLFRAME_ESUCCESS, sample_frame)

/-- A concrete reader that agrees with `sample_reader_a` when given no
previous frame but differs when one is supplied. -/
def sample_reader_b : frame_reader_t :=
  fun _ _ p =>
    match p with
    | none => (.PLFRAME_ENOFRAME, sample_frame)
    | some _ => (.PLFRAME_EBADFRAME, sample_frame)

/-- A concrete cursor whose task is the null port. -/
def sample_cursor_null : plframe_cursor_t :=
  ⟨1, MACH_PORT_NULL, sample_frame_valid, sample_frame⟩

/-- A concrete signal-context adapter that reports failure
(`PLFRAME_EINVAL`) for every context. -/
def sample_failing_sig_adapter : ucontext_adapter_t :=
  fun _ => (.PLFRAME_EINVAL, sample_thread_state)

/-- A concrete signal-context adapter that always succeeds. -/
def sample_sig_adapter : ucontext_adapter_t :=
  fun _ => (.PLFRAME_ESUCCESS, sample_thread_state2)

/-- A concrete live-thread adapter that reports failure
(`PLFRAME_EUNKNOWN`) for every thread. -/
def sample_failing_th_adapter : mach_thread_adapter_t :=
  fun _ => (.PLFRAME_EUNKNOWN, sample_thread_state)

/-- C7: `plframe_strerror` is total over the eight enumerated codes,
returning a fixed, non-empty string for each, and never reaches the
fallback `"Unhandled error code"` branch; being a pure function, repeated
calls with the same code yield the same string by definition. -/
theorem C7_strerror_total_nonempty (e : plframe_error_t) :
    0 < (plframe_strerror e).length ∧
      plframe_strerror e ≠ "Unhandled error code" := by
  cases e <;> exact ⟨by decide, by decide⟩

/-- C1: at depth ≥ 1, when the frame reader yields any non-success code,
`plframe_cursor_next` returns that code unchanged and the cursor —
current snapshot, previous snapshot, depth (and task) — is exactly as it
was before the call. -/
theorem C1_advance_error_leaves_state (reader : frame_reader_t)
    (cursor : plframe_cursor_t) (hd : 1 ≤ cursor.depth)
    (he : (reader cursor.task cursor.frame
        (if 2 ≤ cursor.depth then some cursor.prev_frame else none)).1 ≠
      .PLFRAME_ESUCCESS) :
    plframe_cursor_next reader cursor =
      ((reader cursor.task cursor.frame
        (if 2 ≤ cursor.depth then some cursor.prev_frame else none)).1,
       cursor) := by
  have h0 : ¬ cursor.depth = 0 := by omega
  simp only [plframe_cursor_next, if_neg h0]
  rw [if_pos he]

/-- C1 witness: a depth-1 cursor and a reader that reports
`PLFRAME_ENOFRAME`: the code is propagated and the cursor unchanged. -/
theorem C1_witness :
    plframe_cursor_next sample_reader_err sample_cursor1 =
      (.PLFRAME_ENOFRAME, sample_cursor1) :=
  C1_advance_error_leaves_state sample_reader_err sample_cursor1
    (by decide) (by decide)

/-- C2: at depth ≥ 1, when the frame reader yields success together with
a new snapshot, `plframe_cursor_next` moves the old current snapshot into
`prev_frame`, installs the new snapshot as `frame`, increments the depth
by exactly one, and returns success. -/
theorem C2_advance_success_shifts_window (reader : frame_reader_t)
    (cursor : plframe_cursor_t) (f : plframe_stackframe_t)
    (hd : 1 ≤ cursor.depth)
    (hr : reader cursor.task cursor.frame
        (if 2 ≤ cursor.depth then some cursor.prev_frame else none) =
      (.PLFRAME_ESUCCESS, f)) :
    plframe_cursor_next reader cursor =
      (.PLFRAME_ESUCCESS,
       { cursor with
          prev_frame := cursor.frame
          frame := f
          depth := cursor.depth + 1 }) := by
  have h0 : ¬ cursor.depth = 0 := by omega
  simp only [plframe_cursor_next, if_neg h0, hr]
  simp

/-- A concrete frame reader that always succeeds with
`sample_frame_valid`. -/
theorem C2_witness :
    plframe_cursor_next (fun _ _ _ => (.PLFRAME_ESUCCESS, sample_frame_valid))
        sample_cursor1 =
      (.PLFRAME_ESUCCESS,
       { sample_cursor1 with
          prev_frame := sample_cursor1.frame
          frame := sample_frame_valid
          depth := sample_cursor1.depth + 1 }) :=
  C2_advance_success_shifts_window
    (fun _ _ _ => (.PLFRAME_ESUCCESS, sample_frame_valid))
    sample_cursor1 sample_frame_valid (by decide) rfl

/-- C3: at depth 0, `plframe_cursor_next` returns success with the depth
set to 1 and everything else — in particular the current snapshot with
its all-valid register set — unchanged; the result does not depend on the
frame reader at all.  Consequently `plframe_cursor_init` followed by one
advance yields success, depth 1, and a current snapshot in which every
register reports valid. -/
theorem C3_first_advance_uses_initial_frame (reader reader2 : frame_reader_t)
    (cursor c0 : plframe_cursor_t) (task : task_t)
    (ts : plcrash_async_thread_state_t) (refs : mach_refs_t)
    (hd : cursor.depth = 0) :
    plframe_cursor_next reader cursor =
        (.PLFRAME_ESUCCESS, { cursor with depth := 1 }) ∧
    plframe_cursor_next reader cursor = plframe_cursor_next reader2 cursor ∧
    (plframe_cursor_init c0 task ts refs).1 = .PLFRAME_ESUCCESS ∧
    (plframe_cursor_next reader (plframe_cursor_init c0 task ts refs).2.1).1 =
        .PLFRAME_ESUCCESS ∧
    (plframe_cursor_next reader (plframe_cursor_init c0 task ts refs).2.1).2.depth = 1 ∧
    ∀ r, plframe_regset_isset
        (plframe_cursor_next reader
          (plframe_cursor_init c0 task ts refs).2.1).2.frame.valid_registers r =
      true := by
  refine ⟨?_, ?_, rfl, rfl, rfl, fun r => rfl⟩
  · simp [plframe_cursor_next, hd]
  · simp [plframe_cursor_next, hd]

/-- C3 witness: the depth-0 sample cursor advanced once, and the
init-then-advance pipeline at concrete arguments. -/
theorem C3_witness :
    plframe_cursor_next sample_reader_err sample_cursor0 =
        (.PLFRAME_ESUCCESS, { sample_cursor0 with depth := 1 }) ∧
    (plframe_cursor_next sample_reader_err
        (plframe_cursor_init sample_cursor0 7 sample_thread_state sample_refs).2.1).2.depth =
      1 :=
  ⟨(C3_first_advance_uses_initial_frame sample_reader_err sample_reader_err
      sample_cursor0 sample_cursor0 7 sample_thread_state sample_refs rfl).1,
   (C3_first_advance_uses_initial_frame sample_reader_err sample_reader_err
      sample_cursor0 sample_cursor0 7 sample_thread_state sample_refs rfl).2.2.2.2.1⟩

/-- C4: `plframe_cursor_get_reg` returns `PLFRAME_ENOTSUP` whenever the
register's bit is unset in the current snapshot's validity set — for
every cursor, hence regardless of the values stored in the thread state —
and, when the bit is set, returns success with the value read from the
stored thread state (a pure lookup, with no remote memory access in the
definition). -/
theorem C4_get_reg_validity_gate (cursor : plframe_cursor_t) (regnum : Nat) :
    (plframe_regset_isset cursor.frame.valid_registers regnum = false →
      plframe_cursor_get_reg cursor regnum = (.PLFRAME_ENOTSUP, none)) ∧
    (plframe_regset_isset cursor.frame.valid_registers regnum = true →
      plframe_cursor_get_reg cursor regnum =
        (.PLFRAME_ESUCCESS,
         some (plcrash_async_thread_state_get_reg
            cursor.frame.thread_state regnum))) := by
  constructor
  · intro h
    simp [plframe_cursor_get_reg, h]
  · intro h
    simp [plframe_cursor_get_reg, h]

/-- C4 witness: a cursor whose current frame has register 5 invalid but a
nonzero stored value for it still reports not-supported, and a cursor
with the bit set returns the stored value. -/
theorem C4_witness :
    plframe_cursor_get_reg ⟨1, 7, ⟨sample_thread_state2, plframe_regset_zero⟩,
        sample_frame⟩ 5 = (.PLFRAME_ENOTSUP, none) ∧
    plframe_cursor_get_reg sample_cursor1 5 = (.PLFRAME_ESUCCESS, some 45) :=
  ⟨(C4_get_reg_validity_gate ⟨1, 7, ⟨sample_thread_state2, plframe_regset_zero⟩,
      sample_frame⟩ 5).1 rfl,
   (C4_get_reg_validity_gate sample_cursor1 5).2 rfl⟩

/-- Acquiring one send-right reference and then releasing one restores
the reference-count state exactly. -/
theorem mach_port_mod_refs_acquire_release (refs : mach_refs_t) (port : task_t) :
    mach_port_mod_refs (mach_port_mod_refs refs port 1) port (-1) = refs := by
  funext p
  by_cases h : p = port <;> simp [mach_port_mod_refs, h]

/-- C5: for each of the three initializers — including the live-thread
one whose adapter may report failure, which is universally quantified
here — initialization acquires exactly one send-right reference on the
task, and a single `plframe_cursor_free` afterwards releases exactly one,
restoring the original reference counts. -/
theorem C5_task_reference_lifetime (sig_adapter : ucontext_adapter_t)
    (th_adapter : mach_thread_adapter_t) (cursor : plframe_cursor_t)
    (task : task_t) (ts : plcrash_async_thread_state_t) (uap : ucontext_t)
    (thread : thread_t) (refs : mach_refs_t) (h : task ≠ MACH_PORT_NULL) :
    ((plframe_cursor_init cursor task ts refs).2.2 =
        mach_port_mod_refs refs task 1 ∧
     plframe_cursor_free (plframe_cursor_init cursor task ts refs).2.1
        (plframe_cursor_init cursor task ts refs).2.2 = refs) ∧
    ((plframe_cursor_signal_init sig_adapter cursor task uap refs).2.2 =
        mach_port_mod_refs refs task 1 ∧
     plframe_cursor_free
        (plframe_cursor_signal_init sig_adapter cursor task uap refs).2.1
        (plframe_cursor_signal_init sig_adapter cursor task uap refs).2.2 = refs) ∧
    ((plframe_cursor_thread_init th_adapter cursor task thread refs).2.2 =
        mach_port_mod_refs refs task 1 ∧
     plframe_cursor_free
        (plframe_cursor_thread_init th_adapter cursor task thread refs).2.1
        (plframe_cursor_thread_init th_adapter cursor task thread refs).2.2 = refs) := by
  have hfree : ∀ c1 : plframe_cursor_t, c1.task = task →
      plframe_cursor_free c1 (mach_port_mod_refs refs task 1) = refs := by
    intro c1 hc
    unfold plframe_cursor_free
    rw [hc, if_pos h]
    exact mach_port_mod_refs_acquire_release refs task
  exact ⟨⟨rfl, hfree _ rfl⟩, ⟨rfl, hfree _ rfl⟩, ⟨rfl, hfree _ rfl⟩⟩

/-- C5 witness: on task 7, init (via the raw-state path and via the
live-thread path with a failing adapter) then free restores the sample
reference counts. -/
theorem C5_witness :
    plframe_cursor_free
        (plframe_cursor_init sample_cursor0 7 sample_thread_state sample_refs).2.1
        (plframe_cursor_init sample_cursor0 7 sample_thread_state sample_refs).2.2 =
      sample_refs ∧
    plframe_cursor_free
        (plframe_cursor_thread_init sample_failing_th_adapter sample_cursor0 7 0
          sample_refs).2.1
        (plframe_cursor_thread_init sample_failing_th_adapter sample_cursor0 7 0
          sample_refs).2.2 =
      sample_refs :=
  ⟨(C5_task_reference_lifetime sample_sig_adapter sample_failing_th_adapter
      sample_cursor0 7 sample_thread_state 0 0 sample_refs (by decide)).1.2,
   (C5_task_reference_lifetime sample_sig_adapter sample_failing_th_adapter
      sample_cursor0 7 sample_thread_state 0 0 sample_refs (by decide)).2.2.2⟩

/-- C6 counterexample: with an adapter that reports `PLFRAME_EINVAL` for
every signal context, `plframe_cursor_signal_init` still returns
`PLFRAME_ESUCCESS` — the adapter's error code is not propagated, because
the call site (line 157) discards it. -/
theorem C6_counterexample :
    (sample_failing_sig_adapter 0).1 = .PLFRAME_EINVAL ∧
    (plframe_cursor_signal_init sample_failing_sig_adapter sample_cursor0 7 0
        sample_refs).1 = .PLFRAME_ESUCCESS ∧
    plframe_error_t.PLFRAME_ESUCCESS ≠ .PLFRAME_EINVAL := by
  exact ⟨rfl, rfl, by decide⟩

/-- C6 (amended): `plframe_cursor_signal_init` delegates conversion to
the thread-state adapter — the stored current-frame state is the
adapter's output — and returns `PLFRAME_ESUCCESS` unconditionally, with
the same postconditions as `plframe_cursor_init` (depth 0, all current
registers valid, no previous registers valid, one reference acquired on
the task); any error code the adapter reports is discarded, never
propagated. -/
theorem C6_signal_init_always_succeeds (adapter : ucontext_adapter_t)
    (cursor : plframe_cursor_t) (task : task_t) (uap : ucontext_t)
    (refs : mach_refs_t) :
    (plframe_cursor_signal_init adapter cursor task uap refs).1 =
        .PLFRAME_ESUCCESS ∧
    (plframe_cursor_signal_init adapter cursor task uap refs).2.1.frame.thread_state =
        (adapter uap).2 ∧
    (plframe_cursor_signal_init adapter cursor task uap refs).2.1.depth = 0 ∧
    (plframe_cursor_signal_init adapter cursor task uap refs).2.1.task = task ∧
    (∀ r, plframe_regset_isset
        (plframe_cursor_signal_init adapter cursor task uap
          refs).2.1.frame.valid_registers r = true) ∧
    (∀ r, plframe_regset_isset
        (plframe_cursor_signal_init adapter cursor task uap
          refs).2.1.prev_frame.valid_registers r = false) ∧
    (plframe_cursor_signal_init adapter cursor task uap refs).2.2 =
        mach_port_mod_refs refs task 1 :=
  ⟨rfl, rfl, rfl, rfl, fun _ => rfl, fun _ => rfl, rfl⟩

/-- C8: `plframe_cursor_init` establishes depth 0, stores the caller's
thread state verbatim as the current snapshot, marks every register valid
in the current snapshot, clears the previous snapshot's validity set,
stores the task and bumps its reference count by exactly one (leaving all
other ports' counts unchanged), and returns success. -/
theorem C8_init_postconditions (cursor : plframe_cursor_t) (task : task_t)
    (ts : plcrash_async_thread_state_t) (refs : mach_refs_t) :
    (plframe_cursor_init cursor task ts refs).1 = .PLFRAME_ESUCCESS ∧
    (plframe_cursor_init cursor task ts refs).2.1.depth = 0 ∧
    (plframe_cursor_init cursor task ts refs).2.1.task = task ∧
    (plframe_cursor_init cursor task ts refs).2.1.frame.thread_state = ts ∧
    (∀ r, plframe_regset_isset
        (plframe_cursor_init cursor task ts refs).2.1.frame.valid_registers r =
      true) ∧
    (∀ r, plframe_regset_isset
        (plframe_cursor_init cursor task ts refs).2.1.prev_frame.valid_registers r =
      false) ∧
    (plframe_cursor_init cursor task ts refs).2.2 task = refs task + 1 ∧
    ∀ p, p ≠ task → (plframe_cursor_init cursor task ts refs).2.2 p = refs p := by
  refine ⟨rfl, rfl, rfl, rfl, fun r => rfl, fun r => rfl, ?_, ?_⟩
  · simp [plframe_cursor_init, plframe_cursor_internal_init, mach_port_mod_refs]
  · intro p hp
    simp [plframe_cursor_init, plframe_cursor_internal_init,
      mach_port_mod_refs, hp]

/-- C8 witness: at concrete arguments, the task's count is bumped by one
and an unrelated port's count is untouched. -/
theorem C8_witness :
    (plframe_cursor_init sample_cursor1 7 sample_thread_state sample_refs).2.2 7 =
        sample_refs 7 + 1 ∧
    (plframe_cursor_init sample_cursor1 7 sample_thread_state sample_refs).2.2 3 =
        sample_refs 3 :=
  ⟨(C8_init_postconditions sample_cursor1 7 sample_thread_state
      sample_refs).2.2.2.2.2.2.1,
   (C8_init_postconditions sample_cursor1 7 sample_thread_state
      sample_refs).2.2.2.2.2.2.2 3 (by decide)⟩

/-- C9: the frame reader is consulted with the previous snapshot exactly
when depth ≥ 2.  At depth 1 the advance depends on the reader only
through its value at `none` — two readers agreeing there behave
identically, so the previous snapshot is never passed (nor read) — while
at depth ≥ 2 it depends on the reader only through its value at
`some prev_frame`. -/
theorem C9_reader_previous_frame_argument (cursor : plframe_cursor_t)
    (r1 r2 : frame_reader_t) :
    (cursor.depth = 1 →
      r1 cursor.task cursor.frame none = r2 cursor.task cursor.frame none →
      plframe_cursor_next r1 cursor = plframe_cursor_next r2 cursor) ∧
    (2 ≤ cursor.depth →
      r1 cursor.task cursor.frame (some cursor.prev_frame) =
        r2 cursor.task cursor.frame (some cursor.prev_frame) →
      plframe_cursor_next r1 cursor = plframe_cursor_next r2 cursor) := by
  constructor
  · intro hd hr
    simp [plframe_cursor_next, hd, hr]
  · intro hd hr
    have h0 : ¬ cursor.depth = 0 := by omega
    simp [plframe_cursor_next, h0, hd, hr]

/-- C9 witness: at depth 1, two readers that agree when given no previous
frame — but disagree when given one — produce identical advances. -/
theorem C9_witness :
    plframe_cursor_next sample_reader_a sample_cursor1 =
      plframe_cursor_next sample_reader_b sample_cursor1 :=
  (C9_reader_previous_frame_argument sample_cursor1 sample_reader_a
      sample_reader_b).1 rfl rfl

/-- C10: `plframe_cursor_free` on a cursor whose task is the null port
modifies no reference count at all; when the task is a non-null port it
decrements that port's count by exactly one and leaves every other port's
count unchanged. -/
theorem C10_free_null_task_noop (cursor : plframe_cursor_t)
    (refs : mach_refs_t) :
    (cursor.task = MACH_PORT_NULL → plframe_cursor_free cursor refs = refs) ∧
    (cursor.task ≠ MACH_PORT_NULL →
      plframe_cursor_free cursor refs cursor.task = refs cursor.task - 1 ∧
      ∀ p, p ≠ cursor.task → plframe_cursor_free cursor refs p = refs p) := by
  constructor
  · intro h
    simp [plframe_cursor_free, h]
  · intro h
    refine ⟨?_, ?_⟩
    · simp [plframe_cursor_free, h, mach_port_mod_refs]
      omega
    · intro p hp
      simp [plframe_cursor_free, h, mach_port_mod_refs, hp]

/-- C10 witness: freeing the null-task sample cursor leaves the sample
reference counts untouched, while freeing a task-7 cursor decrements
port 7's count. -/
theorem C10_witness :
    plframe_cursor_free sample_cursor_null sample_refs = sample_refs ∧
    plframe_cursor_free sample_cursor1 sample_refs 7 = sample_refs 7 - 1 :=
  ⟨(C10_free_null_task_noop sample_cursor_null sample_refs).1 rfl,
   ((C10_free_null_task_noop sample_cursor1 sample_refs).2 (by decide)).1⟩
